import Mathlib

/-!
Verification of the Nexus (NASA OSDR dashboard) specification against the
repository source. The frontend (React/TypeScript under
`src/NASA/frontend`) is embedded directly from its source files. The
backend core described by the spec (aggregator/filter, graph builder,
result cache, remote gateway, listed in the README as `backend/app/*.py`)
is not part of the source tree, so those components are modelled from the
spec text; each such definition is marked in its doc comment.
-/

namespace Nexus

/-! Frontend: HTTP client (`src/NASA/frontend/src/services/nasaApi.ts`) -/

/-- An HTTP response as seen by the frontend client. The `body` field is the
already-parsed JSON payload that `r.json()` would produce; `bodyText` is the
raw response text read by `r.text()`. -/
structure HttpResp (α : Type) where
  ok : Bool
  status : Nat
  statusText : String
  bodyText : String
  body : α
deriving DecidableEq

/-- Result of the client-side response handler: either the parsed payload or
the message of the thrown `Error`. -/
inductive ApiResult (α : Type) where
  | ok (value : α)
  | error (msg : String)
deriving DecidableEq

/-- The `handleResp` function of `nasaApi.ts` (lines 4-10): return the parsed
JSON body when `r.ok` holds, otherwise throw an `Error` whose message is
`API <status> <statusText>: <text>`. -/
def handleResp {α : Type} (r : HttpResp α) : ApiResult α :=
  if r.ok then ApiResult.ok r.body
  else ApiResult.error ("API " ++ toString r.status ++ " " ++ r.statusText ++ ": " ++ r.bodyText)

/-- HTTP method of a frontend request. -/
inductive Method where
  | get
  | post
deriving DecidableEq

/-- An outgoing request built by the `NasaApi` client: method and full URL. -/
structure Request where
  method : Method
  url : String
deriving DecidableEq

/-- Rendering of a JS boolean inside a template string (`${all_files}`). -/
def boolText (b : Bool) : String :=
  if b then "true" else "false"

/-- Characters that JavaScript `encodeURIComponent` leaves unescaped:
letters, digits, and `- _ . ! ~ * ' ( )`. -/
def uriUnescaped (c : Char) : Bool :=
  ('A' ≤ c && c ≤ 'Z') || ('a' ≤ c && c ≤ 'z') || ('0' ≤ c && c ≤ '9') ||
    c == '-' || c == '_' || c == '.' || c == '!' || c == '~' || c == '*' ||
    c == Char.ofNat 39 || c == '(' || c == ')'

/-- UTF-8 encoding of one unicode scalar value, as a list of byte values. -/
def utf8Bytes (n : Nat) : List Nat :=
  if n < 128 then [n]
  else if n < 2048 then [192 + n / 64, 128 + n % 64]
  else if n < 65536 then [224 + n / 4096, 128 + (n / 64) % 64, 128 + n % 64]
  else [240 + n / 262144, 128 + (n / 4096) % 64, 128 + (n / 64) % 64, 128 + n % 64]

/-- Uppercase hexadecimal digits. -/
def hexDigits : List Char :=
  ['0', '1', '2', '3', '4', '5', '6', '7', '8', '9', 'A', 'B', 'C', 'D', 'E', 'F']

/-- Hexadecimal digit for a value reduced modulo 16. -/
def hexDigit (n : Nat) : Char :=
  if n % 16 < 10 then Char.ofNat (48 + n % 16) else Char.ofNat (55 + n % 16)

/-- Percent-escape of one byte, `%XX`. -/
def pctByte (b : Nat) : List Char :=
  ['%', hexDigit (b / 16), hexDigit b]

/-- Escape sequence emitted for one character. -/
def encChar (c : Char) : List Char :=
  if uriUnescaped c then [c] else (List.map pctByte (utf8Bytes c.toNat)).flatten

/-- JavaScript `encodeURIComponent`, modelled character by character. -/
def encodeURIComponent (s : String) : String :=
  String.mk (s.data.foldr (fun c acc => encChar c ++ acc) [])

/-- Characters that can occur in `encodeURIComponent` output: unescaped
characters, the percent sign, and hexadecimal digits. URI-reserved
characters such as `/`, `?`, `&`, `#`, `=` are excluded. -/
def uriOutputChar (c : Char) : Bool :=
  uriUnescaped c || c == '%' || hexDigits.contains c

/-- The `NasaApi.getGraph` method (`nasaApi.ts` lines 76-79):
GET `<base>/graph?limit=<limit>`. -/
def getGraphRequest (base : String) (limit : Nat) : Request :=
  { method := Method.get, url := base ++ "/graph?limit=" ++ toString limit }

/-- The `NasaApi.getMetadata` method (`nasaApi.ts` lines 91-94):
GET `<base>/study/<encodeURIComponent studyId>`. -/
def getMetadataRequest (base : String) (studyId : String) : Request :=
  { method := Method.get, url := base ++ "/study/" ++ encodeURIComponent studyId }

/-- The `NasaApi.getFiles` method (`nasaApi.ts` lines 96-100):
GET `<base>/files/<encodeURIComponent ids>?page=<page>&size=<size>&all_files=<all>`,
where the TypeScript default arguments are `page = 0`, `size = 25`,
`all_files = false`. -/
def getFilesRequest (base : String) (studyIds : String) (page : Nat) (size : Nat)
    (allFiles : Bool) : Request :=
  { method := Method.get,
    url := base ++ "/files/" ++ encodeURIComponent studyIds ++ "?page=" ++ toString page ++
      "&size=" ++ toString size ++ "&all_files=" ++ boolText allFiles }

/-- The methods of the `NasaApi` class (`nasaApi.ts` lines 49-111), with the
arguments each interpolates into its URL. -/
inductive ApiMethod where
  | getDatasets (limit : Nat)
  | searchStudies
  | getOrganisms
  | getMissions
  | getGraph (limit : Nat)
  | getTimeline
  | getInsights
  | getMetadata (studyId : String)
  | getFiles (studyIds : String) (page : Nat) (size : Nat) (allFiles : Bool)
  | summarize (text : String)
  | health
deriving DecidableEq

/-- The single request each `NasaApi` method builds (`nasaApi.ts` lines
52-110): `getDatasets` GETs `/datasets?limit=`, `searchStudies` POSTs
`/search`, `getOrganisms`/`getMissions`/`getTimeline`/`health` GET their
endpoints, `getInsights` and `summarize` POST, and the graph, metadata and
files methods build the requests modelled above. -/
def methodRequest (base : String) : ApiMethod → Request
  | ApiMethod.getDatasets limit =>
    { method := Method.get, url := base ++ "/datasets?limit=" ++ toString limit }
  | ApiMethod.searchStudies => { method := Method.post, url := base ++ "/search" }
  | ApiMethod.getOrganisms => { method := Method.get, url := base ++ "/organisms" }
  | ApiMethod.getMissions => { method := Method.get, url := base ++ "/missions" }
  | ApiMethod.getGraph limit => getGraphRequest base limit
  | ApiMethod.getTimeline => { method := Method.get, url := base ++ "/timeline" }
  | ApiMethod.getInsights => { method := Method.post, url := base ++ "/insights" }
  | ApiMethod.getMetadata studyId => getMetadataRequest base studyId
  | ApiMethod.getFiles studyIds page size allFiles =>
    getFilesRequest base studyIds page size allFiles
  | ApiMethod.summarize text =>
    { method := Method.post, url := base ++ "/summarize?text=" ++ encodeURIComponent text }
  | ApiMethod.health => { method := Method.get, url := base ++ "/health" }

/-- Execution of one `NasaApi` method against a script of upstream responses:
every method body is `await fetch(url)` followed by `handleResp(res)`, so it
issues exactly its one request, consumes exactly the first response of the
script whatever its status, and returns `handleResp` of it. The returned
request list records the requests issued; an empty script models a rejected
`fetch` (the `TypeError` propagates, again with no second request). -/
def runMethod {α : Type} (base : String) (m : ApiMethod) (script : List (HttpResp α)) :
    ApiResult α × List Request :=
  match script with
  | [] => (ApiResult.error "TypeError: Failed to fetch", [methodRequest base m])
  | r :: _ => (handleResp r, [methodRequest base m])

/-! Frontend: search hooks and Search page
(`src/NASA/frontend/src/hooks/useNasaData.ts`, `src/unnamed/part_000`) -/

/-- The filters object handed to `useSearch`; `query` is `none` when the JS
field is absent (`undefined`). -/
structure SearchFilters where
  query : Option String
  organisms : List String
  missions : List String
deriving DecidableEq

/-- Truthiness of the `enabled` expression of `useSearch` (`useNasaData.ts`
line 15): `!!(filters && (filters.query || organisms.length || missions.length))`.
An absent or empty query string and empty arrays are all falsy. -/
def searchEnabled : Option SearchFilters → Bool
  | none => false
  | some f =>
    (match f.query with
     | none => false
     | some q => !(q == "")) ||
      !(f.organisms.length == 0) || !(f.missions.length == 0)

/-- The network request issued by `useSearch`: React Query only invokes the
query function when `enabled` is true, in which case `searchStudies` POSTs
to `<base>/search`. -/
def useSearchRequest (base : String) (filters : Option SearchFilters) : Option Request :=
  if searchEnabled filters then some { method := Method.post, url := base ++ "/search" }
  else none

/-- Disabled state of the Search page button (`src/unnamed/part_000` line 58):
`!query && selectedOrganisms.length === 0 && selectedMissions.length === 0`. -/
def searchButtonDisabled (query : String) (organisms : List String)
    (missions : List String) : Bool :=
  (query == "") && organisms.length == 0 && missions.length == 0

/-! Graph data model (spec section 3) and Laboratory page
(`src/unnamed/part_001`, `src/NASA/frontend/src/components/GraphViewport.tsx`) -/

/-- Type of a graph node (spec section 3). -/
inductive NodeType where
  | study
  | organism
  | mission
  | publication
deriving DecidableEq

/-- Lowercase name of a node type, as carried by the JSON `type` field. -/
def typeName : NodeType → String
  | NodeType.study => "study"
  | NodeType.organism => "organism"
  | NodeType.mission => "mission"
  | NodeType.publication => "publication"

/-- A node of a graph snapshot. -/
structure GraphNode where
  id : String
  label : String
  type : NodeType
deriving DecidableEq

/-- An edge of a graph snapshot. -/
structure GraphEdge where
  source : String
  target : String
  label : Option String
deriving DecidableEq

/-- A graph snapshot, the success shape of GET `/graph`. -/
structure Graph where
  nodes : List GraphNode
  edges : List GraphEdge
deriving DecidableEq

/-- The `filteredNodes` memo of the Laboratory page (`src/unnamed/part_001`
lines 16-19): with filter `"all"` every node, otherwise the nodes whose
lowercase type name equals the filter. `typeName` is already lowercase, so
the `toLowerCase()` call is the identity here. -/
def labFilteredNodes (nodes : List GraphNode) (filterType : String) : List GraphNode :=
  if filterType == "all" then nodes
  else nodes.filter (fun n => typeName n.type == filterType)

/-- The Laboratory page reads `graphData?.nodes || []` (`src/unnamed/part_001`
line 13). -/
def labNodes : Option Graph → List GraphNode
  | none => []
  | some g => g.nodes

/-- The Laboratory page reads `graphData?.edges || []` (`src/unnamed/part_001`
line 14). -/
def labEdges : Option Graph → List GraphEdge
  | none => []
  | some g => g.edges

/-! Backend core, modelled from the spec (the `backend/app` package named in
the README is not in the source tree). -/

/-- Modelled from the spec: a raw search hit handed to the Aggregator
(spec section 4.3; the backend search client is missing from the tree). -/
structure SearchHit where
  id : String
  title : String
  organism : Option String
  mission : Option String
deriving DecidableEq

/-- Modelled from the spec: metadata-API fields used for enrichment
(spec section 4.3 step 3; the backend metadata client is missing from the
tree). -/
structure MetaInfo where
  organism : Option String
  mission : Option String
  releaseDate : Option String
deriving DecidableEq

/-- Modelled from the spec: a DatasetRecord (spec section 3), with named
optional metadata fields. -/
structure DatasetRecord where
  identifier : String
  title : String
  organism : Option String
  mission : Option String
  releaseDate : Option String
deriving DecidableEq

/-- Boolean test that the first list is an initial segment of the second. -/
def listStarts : List Char → List Char → Bool
  | [], _ => true
  | _ :: _, [] => false
  | c :: cs, d :: ds => c == d && listStarts cs ds

/-- The accepted genuine-study identifier markers of spec section 4.3 step 2. -/
def acceptedTags : List String :=
  ["OSD-", "GLDS-"]

/-- The genuine-study filter: the identifier begins with an accepted marker. -/
def acceptedId (id : String) : Bool :=
  acceptedTags.any (fun p => listStarts p.data id.data)

/-- Modelled from the spec: the enrichment step of `aggregate` (spec section
4.3 step 3; the backend aggregator is missing from the tree). Metadata
fields are used when present; when the lookup fails the search-hit-only
record is kept. -/
def enrich (lookup : String → Option MetaInfo) (h : SearchHit) : DatasetRecord :=
  match lookup h.id with
  | none =>
    { identifier := h.id, title := h.title, organism := h.organism,
      mission := h.mission, releaseDate := none }
  | some m =>
    { identifier := h.id, title := h.title,
      organism := m.organism.orElse (fun _ => h.organism),
      mission := m.mission.orElse (fun _ => h.mission),
      releaseDate := m.releaseDate }

/-- Score of one optional metadata field: present and non-empty counts 1. -/
def fieldScore : Option String → Nat
  | none => 0
  | some s => if s == "" then 0 else 1

/-- Metadata completeness of a record (spec section 4.3 step 4). -/
def richness (r : DatasetRecord) : Nat :=
  fieldScore r.organism + fieldScore r.mission + fieldScore r.releaseDate

/-- Modelled from the spec: one deduplication step (spec section 4.3 step 4;
the backend aggregator is missing from the tree). A duplicate replaces the
earlier record in place exactly when it is strictly richer, so first-seen
order is preserved. -/
def upsert (acc : List DatasetRecord) (r : DatasetRecord) : List DatasetRecord :=
  if acc.any (fun x => x.identifier == r.identifier) then
    acc.map (fun x =>
      if x.identifier == r.identifier && richness x < richness r then r else x)
  else acc ++ [r]

/-- Modelled from the spec: deduplication by identifier (spec section 4.3
step 4). -/
def dedup (rs : List DatasetRecord) : List DatasetRecord :=
  rs.foldl upsert []

/-- Modelled from the spec: `aggregate(searchHits, metadataLookup)` (spec
section 4.3; the backend aggregator is missing from the tree). Extract
identifiers, keep only accepted ones, enrich each surviving hit, then
deduplicate. -/
def aggregate (hits : List SearchHit) (lookup : String → Option MetaInfo) :
    List DatasetRecord :=
  dedup ((hits.filter (fun h => acceptedId h.id)).map (enrich lookup))

/-- Modelled from the spec: the stable node-identity scheme of the Graph
Builder (spec sections 3 and 4.4). The four markers begin with distinct
characters, so the id spaces of the four node types never collide. -/
def typeTag : NodeType → String
  | NodeType.study => "study:"
  | NodeType.organism => "organism:"
  | NodeType.mission => "mission:"
  | NodeType.publication => "publication:"

/-- Node identity: type marker followed by the entity label. -/
def nodeIdOf (t : NodeType) (label : String) : String :=
  typeTag t ++ label

/-- Add a node unless a node with the same id is already present. -/
def addNode (g : Graph) (n : GraphNode) : Graph :=
  if g.nodes.any (fun m => m.id == n.id) then g
  else { g with nodes := g.nodes ++ [n] }

/-- Add an edge unless an edge between the same ordered pair is present. -/
def addEdge (g : Graph) (e : GraphEdge) : Graph :=
  if g.edges.any (fun f => f.source == e.source && f.target == e.target) then g
  else { g with edges := g.edges ++ [e] }

/-- Create or reuse (by label) an entity node and connect the study to it. -/
def addEntity (g : Graph) (t : NodeType) (label : String) (studyId : String) : Graph :=
  let nid := nodeIdOf t label
  addEdge (addNode g { id := nid, label := label, type := t })
    { source := studyId, target := nid, label := some (typeName t) }

/-- An optional field counts as carried only when present and non-empty. -/
def presentField : Option String → Option String
  | none => none
  | some s => if s == "" then none else some s

/-- Modelled from the spec: processing of one DatasetRecord by the Graph
Builder (spec section 4.4; the backend graph service is missing from the
tree). A study node, then organism and mission entities when carried. -/
def addRecord (g : Graph) (r : DatasetRecord) : Graph :=
  let sid := nodeIdOf NodeType.study r.identifier
  let g1 := addNode g { id := sid, label := r.identifier, type := NodeType.study }
  let g2 :=
    match presentField r.organism with
    | none => g1
    | some o => addEntity g1 NodeType.organism o sid
  match presentField r.mission with
  | none => g2
  | some m => addEntity g2 NodeType.mission m sid

/-- Modelled from the spec: `buildGraph(records, limit)` (spec section 4.4;
the backend graph service is missing from the tree). -/
def buildGraph (records : List DatasetRecord) (limit : Nat) : Graph :=
  (records.take limit).foldl addRecord { nodes := [], edges := [] }

/-! Backend result cache, modelled from the spec (section 4.2). -/

/-- Canonical order on parameter entries: by key, then by value. -/
def paramLe (p q : String × String) : Prop :=
  p.1 < q.1 ∨ (p.1 = q.1 ∧ p.2 ≤ q.2)

instance : DecidableRel paramLe := fun p q => by
  unfold paramLe; infer_instance

/-- Modelled from the spec: the cache fingerprint (spec section 4.2; the
backend cache service is missing from the tree). The logical endpoint name
together with the parameter list sorted into canonical order. -/
def fingerprint (endpointName : String) (params : List (String × String)) :
    String × List (String × String) :=
  (endpointName, List.insertionSort paramLe params)

/-! Backend remote data gateway, modelled from the spec (section 4.1). -/

/-- Modelled from the spec: one upstream response per attempt (the backend
HTTP client is missing from the tree). -/
inductive UpstreamResp where
  | payload (body : String)
  | httpStatus (code : Nat)
  | netFailure
deriving DecidableEq

/-- Outcome of a gateway fetch (error taxonomy of spec section 7). -/
inductive GatewayOutcome where
  | success (body : String)
  | notFound
  | clientError (code : Nat)
  | remoteUnavailable
deriving DecidableEq

/-- Retryable failures: network failures, 5xx, and rate-limiting (429). -/
def retryable : UpstreamResp → Bool
  | UpstreamResp.payload _ => false
  | UpstreamResp.netFailure => true
  | UpstreamResp.httpStatus c => (500 ≤ c && c ≤ 599) || c == 429

/-- Next upstream response; an exhausted script behaves as a network failure. -/
def headResp : List UpstreamResp → UpstreamResp × List UpstreamResp
  | [] => (UpstreamResp.netFailure, [])
  | r :: rest => (r, rest)

/-- Modelled from the spec: the bounded-retry fetch loop of the Remote Data
Gateway (spec section 4.1; the backend HTTP client is missing from the
tree). A 2xx payload is returned at once; 404 maps to `NotFound` with no
retry; other non-retryable client errors fail fast; retryable failures
consume budget; an exhausted budget yields `RemoteUnavailable`. Returns the
outcome and the number of attempts made. -/
def gatewayFetch : Nat → List UpstreamResp → GatewayOutcome × Nat
  | 0, _ => (GatewayOutcome.remoteUnavailable, 0)
  | b + 1, resps =>
    match headResp resps with
    | (UpstreamResp.payload body, _) => (GatewayOutcome.success body, 1)
    | (UpstreamResp.netFailure, rest) =>
      ((gatewayFetch b rest).1, (gatewayFetch b rest).2 + 1)
    | (UpstreamResp.httpStatus c, rest) =>
      if c == 404 then (GatewayOutcome.notFound, 1)
      else if retryable (UpstreamResp.httpStatus c) then
        ((gatewayFetch b rest).1, (gatewayFetch b rest).2 + 1)
      else (GatewayOutcome.clientError c, 1)

/-- Modelled from the spec: the attempt budget, an initial attempt plus three
retries (spec sections 4.1 and 8: a success on the 4th attempt is within
budget). -/
def maxAttempts : Nat := 4

/-! Graph snapshot invariant (spec section 3, GraphEdge). -/

/-- The GraphEdge invariant of spec section 3: both endpoints reference nodes
present in the same graph snapshot, and the edge is not a self-loop. -/
def edgeEndsOk (g : Graph) (e : GraphEdge) : Prop :=
  (∃ n ∈ g.nodes, n.id = e.source) ∧ (∃ n ∈ g.nodes, n.id = e.target) ∧ e.source ≠ e.target

/-- Every edge of the snapshot satisfies the endpoint invariant. -/
def graphOk (g : Graph) : Prop :=
  ∀ e ∈ g.edges, edgeEndsOk g e

/-! Order instances for the canonical parameter order. -/

instance : IsTotal (String × String) paramLe := by
  constructor
  intro p q
  rcases lt_trichotomy p.1 q.1 with h | h | h
  · exact Or.inl (Or.inl h)
  · rcases le_total p.2 q.2 with h2 | h2
    · exact Or.inl (Or.inr ⟨h, h2⟩)
    · exact Or.inr (Or.inr ⟨h.symm, h2⟩)
  · exact Or.inr (Or.inl h)

instance : IsTrans (String × String) paramLe := by
  constructor
  intro p q r hpq hqr
  rcases hpq with h1 | ⟨h1, h1v⟩
  · rcases hqr with h2 | ⟨h2, h2v⟩
    · exact Or.inl (lt_trans h1 h2)
    · exact Or.inl (h2 ▸ h1)
  · rcases hqr with h2 | ⟨h2, h2v⟩
    · exact Or.inl (h1 ▸ h2)
    · exact Or.inr ⟨h1.trans h2, le_trans h1v h2v⟩

instance : IsAntisymm (String × String) paramLe := by
  constructor
  intro p q hpq hqp
  rcases hpq with h1 | ⟨h1, h1v⟩
  · rcases hqp with h2 | ⟨h2, h2v⟩
    · exact absurd h2 (lt_asymm h1)
    · exact absurd h1 (h2 ▸ lt_irrefl q.1)
  · rcases hqp with h2 | ⟨h2, h2v⟩
    · exact absurd h2 (h1 ▸ lt_irrefl p.1)
    · exact Prod.ext h1 (le_antisymm h1v h2v)

/-- Sorting into canonical order is invariant under permutation of the input. -/
theorem sort_eq_of_perm {p1 p2 : List (String × String)} (h : p1.Perm p2) :
    List.insertionSort paramLe p1 = List.insertionSort paramLe p2 :=
  List.eq_of_perm_of_sorted
    ((List.perm_insertionSort paramLe p1).trans (h.trans (List.perm_insertionSort paramLe p2).symm))
    (List.sorted_insertionSort paramLe p1) (List.sorted_insertionSort paramLe p2)

/-- Two permutation-equal parameter lists over the same duplicate-free key
sequence are equal. -/
theorem perm_eq_of_keys_eq :
    ∀ p1 p2 : List (String × String), p1.Perm p2 →
      p1.map Prod.fst = p2.map Prod.fst → (p1.map Prod.fst).Nodup → p1 = p2 := by
  intro p1
  induction p1 with
  | nil =>
    intro p2 h _ _
    exact h.nil_eq
  | cons a t ih =>
    intro p2 h hmap hnd
    cases p2 with
    | nil => exact absurd h.eq_nil (by simp)
    | cons b t2 =>
      simp only [List.map_cons, List.cons.injEq] at hmap
      simp only [List.map_cons, List.nodup_cons] at hnd
      have hab : a = b ∨ a ∈ t2 := by
        have := h.mem_iff.mp (List.mem_cons_self a t)
        simpa using this
      rcases hab with rfl | hmem
      · have ht : t.Perm t2 := h.cons_inv
        rw [ih t2 ht hmap.2 hnd.2]
      · exfalso
        apply hnd.1
        rw [hmap.2]
        exact List.mem_map_of_mem Prod.fst hmem

/-! String lemmas for the node-identity scheme. -/

/-- Study node ids and mission node ids never coincide. -/
theorem study_mission_ne (a b : String) : ("study:" ++ a) ≠ ("mission:" ++ b) := by
  intro h
  have h2 := congrArg String.data h
  simp only [String.data_append] at h2
  have h3 : ('s' :: ('t' :: ('u' :: ('d' :: ('y' :: (':' :: a.data)))))) =
      'm' :: ('i' :: ('s' :: ('s' :: ('i' :: ('o' :: ('n' :: (':' :: b.data))))))) := h2
  simp at h3

/-- Study node ids and organism node ids never coincide. -/
theorem study_organism_ne (a b : String) : ("study:" ++ a) ≠ ("organism:" ++ b) := by
  intro h
  have h2 := congrArg String.data h
  simp only [String.data_append] at h2
  have h3 : ('s' :: ('t' :: ('u' :: ('d' :: ('y' :: (':' :: a.data)))))) =
      'o' :: ('r' :: ('g' :: ('a' :: ('n' :: ('i' :: ('s' :: ('m' :: (':' :: b.data)))))))) := h2
  simp at h3

/-- Study node identity is injective in the record identifier. -/
theorem study_inj {a b : String} (h : ("study:" ++ a) = ("study:" ++ b)) : a = b := by
  have h3 := congrArg String.data h
  simp only [String.data_append] at h3
  have h4 := List.append_cancel_left h3
  cases a; cases b; simp only at h4; rw [h4]

theorem beq_sm (a b : String) : (("study:" ++ a) == ("mission:" ++ b)) = false :=
  beq_false_of_ne (study_mission_ne a b)

theorem beq_ms (a b : String) : (("mission:" ++ a) == ("study:" ++ b)) = false :=
  beq_false_of_ne (fun h => study_mission_ne b a h.symm)

theorem beq_ss {a b : String} (h : a ≠ b) : (("study:" ++ a) == ("study:" ++ b)) = false :=
  beq_false_of_ne (fun h2 => h (study_inj h2))

theorem beq_iss_empty : (("ISS Expedition 65" : String) == "") = false := rfl

theorem beq_nt_sm : (NodeType.study == NodeType.mission) = false := rfl

theorem beq_nt_mm : (NodeType.mission == NodeType.mission) = true := rfl

/-! Aggregator lemmas. -/

/-- Enrichment never changes the identifier extracted from the hit. -/
theorem enrich_identifier (lookup : String → Option MetaInfo) (h : SearchHit) :
    (enrich lookup h).identifier = h.id := by
  cases hl : lookup h.id <;> simp [enrich, hl]

/-- One dedup step only ever stores records taken from the accumulator or the
incoming record. -/
theorem mem_upsert {P : DatasetRecord → Prop} {acc : List DatasetRecord} {r : DatasetRecord}
    (hacc : ∀ x ∈ acc, P x) (hr : P r) : ∀ x ∈ upsert acc r, P x := by
  intro x hx
  unfold upsert at hx
  split at hx
  · rcases List.mem_map.mp hx with ⟨a, ha, heq⟩
    rw [← heq]
    split
    · exact hr
    · exact hacc a ha
  · rcases List.mem_append.mp hx with hm | hm
    · exact hacc x hm
    · rw [List.mem_singleton.mp hm]
      exact hr

/-- Properties of all inputs are preserved through the dedup fold. -/
theorem mem_foldl_upsert {P : DatasetRecord → Prop} :
    ∀ (rs : List DatasetRecord) (acc : List DatasetRecord),
      (∀ x ∈ acc, P x) → (∀ a ∈ rs, P a) → ∀ x ∈ rs.foldl upsert acc, P x := by
  intro rs
  induction rs with
  | nil =>
    intro acc hacc _ x hx
    exact hacc x hx
  | cons a t ih =>
    intro acc hacc hrs x hx
    exact ih (upsert acc a) (mem_upsert hacc (hrs a (by simp))) (fun b hb => hrs b (by simp [hb])) x hx

/-! Graph builder lemmas. -/

theorem addNode_edges (g : Graph) (n : GraphNode) : (addNode g n).edges = g.edges := by
  unfold addNode; split <;> rfl

theorem addEdge_nodes (g : Graph) (e : GraphEdge) : (addEdge g e).nodes = g.nodes := by
  unfold addEdge; split <;> rfl

theorem addNode_nodes_mono {g : Graph} {x : GraphNode} (n : GraphNode)
    (hx : x ∈ g.nodes) : x ∈ (addNode g n).nodes := by
  unfold addNode; split
  · exact hx
  · exact List.mem_append_left _ hx

/-- After `addNode`, some node carries the id of the inserted node. -/
theorem addNode_has (g : Graph) (n : GraphNode) :
    ∃ x ∈ (addNode g n).nodes, x.id = n.id := by
  unfold addNode; split
  · next hc =>
    rcases List.any_eq_true.mp hc with ⟨x, hx, hbeq⟩
    exact ⟨x, hx, by simpa using hbeq⟩
  · exact ⟨n, List.mem_append_right _ (by simp), rfl⟩

theorem graphOk_addNode {g : Graph} (n : GraphNode) (h : graphOk g) : graphOk (addNode g n) := by
  intro e he
  rw [addNode_edges] at he
  obtain ⟨⟨a, ha, hae⟩, ⟨b, hb, hbe⟩, hne⟩ := h e he
  exact ⟨⟨a, addNode_nodes_mono n ha, hae⟩, ⟨b, addNode_nodes_mono n hb, hbe⟩, hne⟩

theorem graphOk_addEdge {g : Graph} {e : GraphEdge} (h : graphOk g)
    (hs : ∃ n ∈ g.nodes, n.id = e.source) (ht : ∃ n ∈ g.nodes, n.id = e.target)
    (hne : e.source ≠ e.target) : graphOk (addEdge g e) := by
  intro f hf
  unfold addEdge at hf
  split at hf
  · obtain ⟨ha, hb, hn⟩ := h f hf
    exact ⟨by rw [addEdge_nodes]; exact ha, by rw [addEdge_nodes]; exact hb, hn⟩
  · rcases List.mem_append.mp hf with hm | hm
    · obtain ⟨ha, hb, hn⟩ := h f hm
      exact ⟨by rw [addEdge_nodes]; exact ha, by rw [addEdge_nodes]; exact hb, hn⟩
    · rw [List.mem_singleton.mp hm]
      exact ⟨by rw [addEdge_nodes]; exact hs, by rw [addEdge_nodes]; exact ht, hne⟩

theorem addEntity_nodes_mono {g : Graph} {x : GraphNode} (t : NodeType) (lbl sid : String)
    (hx : x ∈ g.nodes) : x ∈ (addEntity g t lbl sid).nodes := by
  unfold addEntity
  rw [addEdge_nodes]
  exact addNode_nodes_mono _ hx

theorem graphOk_addEntity {g : Graph} (t : NodeType) (lbl sid : String) (h : graphOk g)
    (hsid : ∃ n ∈ g.nodes, n.id = sid) (hne : sid ≠ nodeIdOf t lbl) :
    graphOk (addEntity g t lbl sid) := by
  unfold addEntity
  apply graphOk_addEdge (graphOk_addNode _ h)
  · rcases hsid with ⟨n, hn, hid⟩
    exact ⟨n, addNode_nodes_mono _ hn, hid⟩
  · exact addNode_has g _
  · exact hne

theorem graphOk_addRecord {g : Graph} (r : DatasetRecord) (h : graphOk g) :
    graphOk (addRecord g r) := by
  simp only [addRecord]
  have h1 : graphOk (addNode g ⟨nodeIdOf NodeType.study r.identifier, r.identifier, NodeType.study⟩) :=
    graphOk_addNode _ h
  have hsid : ∃ n ∈ (addNode g ⟨nodeIdOf NodeType.study r.identifier, r.identifier, NodeType.study⟩).nodes, n.id = nodeIdOf NodeType.study r.identifier :=
    addNode_has g _
  cases presentField r.organism with
  | none =>
    cases presentField r.mission with
    | none => exact h1
    | some m =>
      exact graphOk_addEntity _ _ _ h1 hsid (study_mission_ne r.identifier m)
  | some o =>
    have h2 : graphOk (addEntity (addNode g ⟨nodeIdOf NodeType.study r.identifier, r.identifier, NodeType.study⟩) NodeType.organism o (nodeIdOf NodeType.study r.identifier)) :=
      graphOk_addEntity _ _ _ h1 hsid (study_organism_ne r.identifier o)
    cases presentField r.mission with
    | none => exact h2
    | some m =>
      apply graphOk_addEntity _ _ _ h2 _ (study_mission_ne r.identifier m)
      rcases hsid with ⟨n, hn, hid⟩
      exact ⟨n, addEntity_nodes_mono _ _ _ hn, hid⟩

theorem graphOk_foldl : ∀ (rs : List DatasetRecord) (g : Graph),
    graphOk g → graphOk (rs.foldl addRecord g) := by
  intro rs
  induction rs with
  | nil => intro g hg; exact hg
  | cons a t ih =>
    intro g hg
    exact ih (addRecord g a) (graphOk_addRecord a hg)

/-- Every built snapshot satisfies the edge-endpoint invariant. -/
theorem buildGraph_graphOk (records : List DatasetRecord) (limit : Nat) :
    graphOk (buildGraph records limit) := by
  unfold buildGraph
  apply graphOk_foldl
  intro e he
  simp at he

/-! Percent-encoding lemmas. -/

theorem hexDigit_allowed (n : Nat) : uriOutputChar (hexDigit n) = true := by
  unfold hexDigit
  have hlt : n % 16 < 16 := Nat.mod_lt _ (by decide)
  set m := n % 16 with hm
  interval_cases m <;> decide

theorem pctByte_allowed (b : Nat) : ∀ c ∈ pctByte b, uriOutputChar c = true := by
  intro c hc
  unfold pctByte at hc
  simp only [List.mem_cons, List.not_mem_nil, or_false] at hc
  rcases hc with rfl | rfl | rfl
  · decide
  · exact hexDigit_allowed _
  · exact hexDigit_allowed _

theorem encChar_allowed (ch : Char) : ∀ c ∈ encChar ch, uriOutputChar c = true := by
  intro c hc
  unfold encChar at hc
  split at hc
  · next hunesc =>
    rw [List.mem_singleton.mp hc]
    unfold uriOutputChar
    rw [hunesc]
    rfl
  · rcases List.mem_flatten.mp hc with ⟨l, hl, hcl⟩
    rcases List.mem_map.mp hl with ⟨b, _, rfl⟩
    exact pctByte_allowed b c hcl

/-- Every character of `encodeURIComponent` output is an allowed output
character. -/
theorem encodeURIComponent_allowed (s : String) :
    ∀ c ∈ (encodeURIComponent s).data, uriOutputChar c = true := by
  show ∀ c ∈ (s.data.foldr (fun c acc => encChar c ++ acc) []), uriOutputChar c = true
  induction s.data with
  | nil => intro c hc; exact absurd hc (List.not_mem_nil c)
  | cons a t ih =>
    intro c hc
    rcases List.mem_append.mp hc with h | h
    · exact encChar_allowed a c h
    · exact ih c h

/-- With the TypeScript default arguments the files URL carries
`page=0&size=25&all_files=false`. -/
theorem getFiles_default_url (base id : String) :
    (getFilesRequest base id 0 25 false).url =
      base ++ "/files/" ++ encodeURIComponent id ++ "?page=0&size=25&all_files=false" := by
  have htail : ("?page=" ++ (toString (0 : Nat) ++ ("&size=" ++ (toString (25 : Nat) ++
      ("&all_files=" ++ boolText false))))) = "?page=0&size=25&all_files=false" := rfl
  simp only [getFilesRequest, String.append_assoc, htail]

/-! Claim theorems. -/

/-- Claim C1: every DatasetRecord produced by `aggregate` has an identifier
beginning with an accepted marker (`OSD-` or `GLDS-`); no record with any
other identifier shape appears in the output, for every input hit set and
metadata lookup. -/
theorem aggregate_only_accepted_ids : ∀ (hits : List SearchHit) (lookup : String → Option MetaInfo),
    ∀ r ∈ aggregate hits lookup, acceptedId r.identifier = true := by
  intro hits lookup r hr
  unfold aggregate dedup at hr
  refine mem_foldl_upsert (P := fun x => acceptedId x.identifier = true) _ [] (by simp) ?_ r hr
  intro a ha
  rcases List.mem_map.mp ha with ⟨hh, hmem, heq⟩
  rw [← heq, enrich_identifier]
  exact (List.mem_filter.mp hmem).2

/-- Claim C1 witness: the record surviving aggregation of the single hit
`OSD-1` has an accepted identifier. -/
theorem aggregate_only_accepted_ids_witness : acceptedId "OSD-1" = true :=
  aggregate_only_accepted_ids [⟨"OSD-1", "", none, none⟩] (fun _ => none)
    ⟨"OSD-1", "", none, none, none⟩ (by decide)

/-- Claim C2: on the hits `OSD-1`, `FOO-2`, `OSD-1` with organism
`Mus musculus`, `aggregate` returns exactly one record, with id `OSD-1` and
organism `Mus musculus`: the unaccepted `FOO-2` entry is dropped and the
metadata-richer duplicate wins. -/
theorem aggregate_richer_duplicate_wins :
    aggregate
      [ ⟨"OSD-1", "", none, none⟩, ⟨"FOO-2", "", none, none⟩,
        ⟨"OSD-1", "", some "Mus musculus", none⟩ ]
      (fun _ => none) =
      [ ⟨"OSD-1", "", some "Mus musculus", none, none⟩ ] := by
  decide

/-- Claim C3: for any two records with distinct identifiers that both carry
mission `ISS Expedition 65`, the built graph contains exactly one mission
node labelled `ISS Expedition 65` and exactly two study-to-mission edges
into it. -/
theorem buildGraph_shared_mission_one_node (id1 id2 : String) (h : id1 ≠ id2) :
    (((buildGraph
        [ { identifier := id1, title := "", organism := none,
            mission := some "ISS Expedition 65", releaseDate := none },
          { identifier := id2, title := "", organism := none,
            mission := some "ISS Expedition 65", releaseDate := none } ] 2).nodes.filter
        (fun n => n.type == NodeType.mission && n.label == "ISS Expedition 65")).length = 1) ∧
    (((buildGraph
        [ { identifier := id1, title := "", organism := none,
            mission := some "ISS Expedition 65", releaseDate := none },
          { identifier := id2, title := "", organism := none,
            mission := some "ISS Expedition 65", releaseDate := none } ] 2).edges.filter
        (fun e => e.target == nodeIdOf NodeType.mission "ISS Expedition 65")).length = 2) := by
  have hg : buildGraph
        [ { identifier := id1, title := "", organism := none,
            mission := some "ISS Expedition 65", releaseDate := none },
          { identifier := id2, title := "", organism := none,
            mission := some "ISS Expedition 65", releaseDate := none } ] 2 =
      { nodes := [ { id := "study:" ++ id1, label := id1, type := NodeType.study },
                   { id := "mission:" ++ "ISS Expedition 65", label := "ISS Expedition 65",
                     type := NodeType.mission },
                   { id := "study:" ++ id2, label := id2, type := NodeType.study } ],
        edges := [ { source := "study:" ++ id1, target := "mission:" ++ "ISS Expedition 65",
                     label := some "mission" },
                   { source := "study:" ++ id2, target := "mission:" ++ "ISS Expedition 65",
                     label := some "mission" } ] } := by
    simp only [buildGraph, List.take, List.foldl, addRecord, presentField, addEntity, addNode,
      addEdge, nodeIdOf, typeTag, typeName, List.nil_append, List.cons_append,
      List.append_nil, List.singleton_append, List.any_nil, List.any_cons, beq_sm, beq_ms,
      beq_ss h, beq_self_eq_true, beq_iss_empty, Bool.false_or, Bool.or_false, Bool.true_or,
      Bool.or_true, Bool.false_and, Bool.true_and, Bool.and_false, Bool.and_true,
      Bool.false_eq_true, eq_self_iff_true, if_true, if_false]
  rw [hg]
  constructor
  · simp only [List.filter, beq_nt_sm, beq_nt_mm, Bool.false_and, Bool.true_and,
      beq_self_eq_true, List.length]
  · simp only [List.filter, nodeIdOf, typeTag, beq_self_eq_true, List.length]

/-- Claim C3 witness: the two-record mission scenario at identifiers `OSD-1`
and `OSD-2`. -/
theorem buildGraph_shared_mission_one_node_witness :
    (((buildGraph
        [ ⟨"OSD-1", "", none, some "ISS Expedition 65", none⟩,
          ⟨"OSD-2", "", none, some "ISS Expedition 65", none⟩ ] 2).nodes.filter
        (fun n => n.type == NodeType.mission && n.label == "ISS Expedition 65")).length = 1) ∧
    (((buildGraph
        [ ⟨"OSD-1", "", none, some "ISS Expedition 65", none⟩,
          ⟨"OSD-2", "", none, some "ISS Expedition 65", none⟩ ] 2).edges.filter
        (fun e => e.target == nodeIdOf NodeType.mission "ISS Expedition 65")).length = 2) :=
  buildGraph_shared_mission_one_node "OSD-1" "OSD-2" (by decide)

/-- Claim C4 counterexample: the Laboratory page filters only the nodes and
passes the edges unchanged, so for the filter choice `organism` the node set
handed to GraphViewport is missing the study endpoint of the
study-to-organism edge. This refutes the claim that every edge endpoint is
present in the accompanying node set for every choice of the node-type
filter. -/
theorem lab_filter_breaks_edge_endpoints :
    ∃ e ∈ (buildGraph [⟨"OSD-1", "", some "Mus musculus", none, none⟩] 10).edges,
      ∀ n ∈ labFilteredNodes
        (buildGraph [⟨"OSD-1", "", some "Mus musculus", none, none⟩] 10).nodes "organism",
        n.id ≠ e.source := by
  decide

/-- Claim C4 (amended): in every built graph snapshot each edge's endpoints
reference nodes present in that snapshot's node set and no edge is a
self-loop; the Laboratory pair passed to GraphViewport preserves this for
the filter `all`, which leaves the node set unchanged (for other filter
choices only the no-self-loop half survives, since the page filters nodes
but not edges). -/
theorem builtGraph_edge_endpoints_ok :
    ∀ (records : List DatasetRecord) (limit : Nat),
      (∀ e ∈ (buildGraph records limit).edges,
        (∃ n ∈ (buildGraph records limit).nodes, n.id = e.source) ∧
        (∃ n ∈ (buildGraph records limit).nodes, n.id = e.target) ∧ e.source ≠ e.target) ∧
      (∀ nodes : List GraphNode, labFilteredNodes nodes "all" = nodes) := by
  intro records limit
  constructor
  · exact fun e he => buildGraph_graphOk records limit e he
  · intro nodes
    rfl

/-- Claim C4 witness: the invariant at a one-record build, checked at the
study-to-organism edge. -/
theorem builtGraph_edge_endpoints_ok_witness :
    ((∃ n ∈ (buildGraph [⟨"OSD-1", "", some "Mus musculus", none, none⟩] 10).nodes,
        n.id = "study:OSD-1") ∧
      (∃ n ∈ (buildGraph [⟨"OSD-1", "", some "Mus musculus", none, none⟩] 10).nodes,
        n.id = "organism:Mus musculus") ∧
      ("study:OSD-1" : String) ≠ "organism:Mus musculus") ∧
    labFilteredNodes [] "all" = ([] : List GraphNode) :=
  ⟨(builtGraph_edge_endpoints_ok [⟨"OSD-1", "", some "Mus musculus", none, none⟩] 10).1
      ⟨"study:OSD-1", "organism:Mus musculus", some "organism"⟩ (by decide),
    (builtGraph_edge_endpoints_ok [] 0).2 []⟩

/-- Claim C5: the cache fingerprint is order-canonical and value-sensitive:
permutation-equal parameter mappings fingerprint identically, and two
mappings over the same duplicate-free keys that differ in some value
fingerprint differently. -/
theorem fingerprint_order_canonical_value_sensitive :
    ∀ (endpointName : String) (p1 p2 : List (String × String)),
      (p1.Perm p2 → fingerprint endpointName p1 = fingerprint endpointName p2) ∧
      (p1.map Prod.fst = p2.map Prod.fst → (p1.map Prod.fst).Nodup → p1 ≠ p2 →
        fingerprint endpointName p1 ≠ fingerprint endpointName p2) := by
  intro ep p1 p2
  constructor
  · intro h
    unfold fingerprint
    rw [sort_eq_of_perm h]
  · intro hkeys hnd hne hfp
    apply hne
    unfold fingerprint at hfp
    have hsort : List.insertionSort paramLe p1 = List.insertionSort paramLe p2 :=
      congrArg Prod.snd hfp
    have hperm : p1.Perm p2 :=
      (List.perm_insertionSort paramLe p1).symm.trans
        (hsort ▸ List.perm_insertionSort paramLe p2)
    exact perm_eq_of_keys_eq p1 p2 hperm hkeys hnd

/-- Claim C5 witness: key order is immaterial and a changed value changes the
fingerprint, at concrete search parameters. -/
theorem fingerprint_order_canonical_value_sensitive_witness :
    fingerprint "search" [("organisms", "Mus musculus"), ("query", "bone")] =
      fingerprint "search" [("query", "bone"), ("organisms", "Mus musculus")] ∧
    fingerprint "search" [("query", "bone")] ≠ fingerprint "search" [("query", "ice")] :=
  ⟨(fingerprint_order_canonical_value_sensitive "search"
      [("organisms", "Mus musculus"), ("query", "bone")]
      [("query", "bone"), ("organisms", "Mus musculus")]).1 (by decide),
    (fingerprint_order_canonical_value_sensitive "search"
      [("query", "bone")] [("query", "ice")]).2 rfl (by decide) (by decide)⟩

/-- Claim C6: within the retry budget, three consecutive 503 responses
followed by a 200 yield the successful payload on the fourth attempt, while
a 404 yields `NotFound` after exactly one attempt, with no retry, for every
payload and every continuation of the response script. -/
theorem gateway_retry_and_fail_fast :
    ∀ (body : String) (rest : List UpstreamResp),
      gatewayFetch maxAttempts
        [UpstreamResp.httpStatus 503, UpstreamResp.httpStatus 503,
          UpstreamResp.httpStatus 503, UpstreamResp.payload body] =
        (GatewayOutcome.success body, 4) ∧
      gatewayFetch maxAttempts (UpstreamResp.httpStatus 404 :: rest) =
        (GatewayOutcome.notFound, 1) :=
  fun body rest => ⟨rfl, rfl⟩

/-- Claim C7: for every limit a graph request is a GET of
`<base>/graph?limit=<limit>`, and a successful graph payload exposes
exactly the node and edge arrays that the Laboratory page reads. -/
theorem getGraph_request_and_shape :
    ∀ (base : String) (limit : Nat),
      getGraphRequest base limit =
        { method := Method.get, url := base ++ "/graph?limit=" ++ toString limit } ∧
      ∀ g : Graph, labNodes (some g) = g.nodes ∧ labEdges (some g) = g.edges :=
  fun base limit => ⟨rfl, fun g => ⟨rfl, rfl⟩⟩

/-- Claim C8: `handleResp` returns the parsed JSON body exactly when the
response is ok, and otherwise throws an `Error` whose message carries the
status code and the response text in the fixed format; and every `NasaApi`
method propagates this behaviour with no client-side retry: on any response
script it issues exactly its one request and returns `handleResp` of the
first response, whatever its status, never consuming the continuation. -/
theorem handleResp_contract :
    ∀ (α : Type) (r : HttpResp α),
      (handleResp r = ApiResult.ok r.body ↔ r.ok = true) ∧
      (r.ok = false →
        handleResp r =
          ApiResult.error ("API " ++ toString r.status ++ " " ++ r.statusText ++ ": " ++ r.bodyText)) ∧
      (∀ (base : String) (m : ApiMethod) (rest : List (HttpResp α)),
        runMethod base m (r :: rest) = (handleResp r, [methodRequest base m])) := by
  intro α r
  refine ⟨?_, ?_, ?_⟩
  · cases hr : r.ok <;> simp [handleResp, hr]
  · intro h
    simp [handleResp, h]
  · intro base m rest
    rfl

/-- Claim C8 witness: a 404 response produces the formatted error message, and
the `health` method run on a script starting with that response issues its
single GET `/health` request, returns the thrown error, and performs no
retry. -/
theorem handleResp_contract_witness :
    handleResp { ok := false, status := 404, statusText := "Not Found", bodyText := "missing", body := (0 : Nat) } = ApiResult.error "API 404 Not Found: missing" ∧
    runMethod "http://localhost:8000/api" ApiMethod.health
      [{ ok := false, status := 404, statusText := "Not Found", bodyText := "missing", body := (0 : Nat) }] =
      (ApiResult.error "API 404 Not Found: missing",
        [{ method := Method.get, url := "http://localhost:8000/api/health" }]) :=
  ⟨(handleResp_contract Nat _).2.1 rfl,
    (handleResp_contract Nat _).2.2 "http://localhost:8000/api" ApiMethod.health []⟩

/-- Claim C9: with an absent or empty query and empty organism and mission
lists, `useSearch` is disabled and issues no request (also when the filters
object itself is absent), and the Search page button is disabled in the
same state. -/
theorem useSearch_disabled_when_empty :
    ∀ (base : String) (q : Option String) (orgs ms : List String),
      (q = none ∨ q = some "") → orgs = [] → ms = [] →
      searchEnabled (some { query := q, organisms := orgs, missions := ms }) = false ∧
      useSearchRequest base (some { query := q, organisms := orgs, missions := ms }) = none ∧
      useSearchRequest base none = none ∧
      searchButtonDisabled "" orgs ms = true := by
  intro base q orgs ms hq ho hm
  subst ho; subst hm
  rcases hq with h | h <;> subst h <;> exact ⟨rfl, rfl, rfl, rfl⟩

/-- Claim C9 witness: the empty-query, empty-filter state at the default API
base. -/
theorem useSearch_disabled_when_empty_witness :
    searchEnabled (some { query := some "", organisms := [], missions := [] }) = false ∧
    useSearchRequest "http://localhost:8000/api" (some { query := some "", organisms := [], missions := [] }) = none ∧
    useSearchRequest "http://localhost:8000/api" none = none ∧
    searchButtonDisabled "" [] [] = true :=
  useSearch_disabled_when_empty "http://localhost:8000/api" (some "") [] []
    (Or.inr rfl) rfl rfl

/-- Claim C10: metadata requests go to `/study/<percent-encoded id>` and file
requests to `/files/<percent-encoded id>` with defaults `page=0`, `size=25`,
`all_files=false`; every character of the encoded identifier is an allowed
output character, and the URI-reserved characters are not allowed output
characters, so a reserved character of the raw identifier never reaches the
path unencoded. -/
theorem encoded_request_paths :
    ∀ (base id : String),
      getMetadataRequest base id =
        { method := Method.get, url := base ++ "/study/" ++ encodeURIComponent id } ∧
      (getFilesRequest base id 0 25 false).url =
        base ++ "/files/" ++ encodeURIComponent id ++ "?page=0&size=25&all_files=false" ∧
      (∀ c ∈ (encodeURIComponent id).data, uriOutputChar c = true) ∧
      uriOutputChar '/' = false ∧ uriOutputChar '?' = false ∧
      uriOutputChar '&' = false ∧ uriOutputChar '=' = false ∧ uriOutputChar '#' = false := by
  intro base id
  exact ⟨rfl, getFiles_default_url base id, encodeURIComponent_allowed id,
    by decide, by decide, by decide, by decide, by decide⟩

/-- Claim C10 witness: the encoding of `a/b` contains only allowed characters
(the slash surfaces as `%2F`, whose `F` is allowed), while a raw slash is
not an allowed output character. -/
theorem encoded_request_paths_witness :
    uriOutputChar 'F' = true ∧ uriOutputChar '/' = false :=
  ⟨(encoded_request_paths "api" "a/b").2.2.1 'F' (by decide),
    (encoded_request_paths "api" "a/b").2.2.2.1⟩

end Nexus
